import Mathlib

/-
Verification development for the hand-gesture-driven Christmas-tree
visualization.

The embedding covers:
* the per-frame gesture pipeline of `LocalGestureService.processVideoFrame`
  and its helpers `isFingerExtended`, `isThumbExtended`, `calculateCentroid`
  (services/liveApiService.ts);
* the formation state machine, camera zoom/steering and auto-rotate logic of
  the gesture `useEffect` in components/ChristmasTree.tsx;
* the per-particle position blending of the `animate` loop in
  components/ChristmasTree.tsx.

JavaScript numbers are modelled by `ℝ`; `Math.hypot dx dy` is
`Real.sqrt (dx^2 + dy^2)`.  A separate model with NaN-propagating
arithmetic (`Option ℝ`, `none` = NaN) is used where the behaviour on
non-finite coordinates matters.
-/

namespace XmasTree

/-- One MediaPipe hand landmark: normalized 3D coordinates.  The source reads
only `.x` and `.y`; `z` is carried along to state z-independence. -/
structure Landmark where
  x : ℝ
  y : ℝ
  z : ℝ

/-- A detected hand pose: 21 landmarks indexed positionally
(0 = wrist, 4 = thumb tip, 8 = index tip, 9 = middle MCP, ...). -/
abbrev Pose := Fin 21 → Landmark

/-- `Math.hypot dx dy`. -/
noncomputable def hypot2 (dx dy : ℝ) : ℝ := Real.sqrt (dx ^ 2 + dy ^ 2)

/-- Gesture labels produced by the service (strings `'NONE'`, `'GENERAL'`,
`'POINTING'` in the source). -/
inductive Gesture
  | NONE
  | GENERAL
  | POINTING
deriving DecidableEq

/-- The `HandTrackingResult` record of src/types.ts as produced by
`processVideoFrame`. -/
structure HandTrackingResult where
  x : ℝ
  y : ℝ
  isDetected : Bool
  gesture : Gesture
  handSpread : ℝ

/-- `noResult`: the neutral tracking result
`{ x: 0.5, y: 0.5, isDetected: false, gesture: 'NONE', handSpread: 0 }`. -/
noncomputable def noResult : HandTrackingResult :=
  { x := 1 / 2, y := 1 / 2, isDetected := false, gesture := .NONE, handSpread := 0 }

/-- `palmScale = Math.hypot(wrist.x - middleMCP.x, wrist.y - middleMCP.y)`
with `wrist = landmarks[0]`, `middleMCP = landmarks[9]`. -/
noncomputable def palmScale (p : Pose) : ℝ :=
  hypot2 ((p 0).x - (p 9).x) ((p 0).y - (p 9).y)

/-- `isFingerExtended(landmarks, tipIdx, pipIdx, palmScale)`:
`dTip > dPip + palmScale * 0.15` where `dTip`/`dPip` are distances from the
tip/PIP landmark to the wrist (landmark 0). -/
noncomputable def IsFingerExtended (p : Pose) (tipIdx pipIdx : Fin 21) (ps : ℝ) : Prop :=
  hypot2 ((p tipIdx).x - (p 0).x) ((p tipIdx).y - (p 0).y) >
    hypot2 ((p pipIdx).x - (p 0).x) ((p pipIdx).y - (p 0).y) + ps * (15 / 100)

/-- `isThumbExtended(landmarks, palmScale)`: distances of the thumb tip
(landmark 4) and thumb IP (landmark 3) to the pinky MCP (landmark 17);
`dTip > dIP + palmScale * 0.1`. -/
noncomputable def IsThumbExtended (p : Pose) (ps : ℝ) : Prop :=
  hypot2 ((p 4).x - (p 17).x) ((p 4).y - (p 17).y) >
    hypot2 ((p 3).x - (p 17).x) ((p 3).y - (p 17).y) + ps * (1 / 10)

/-- `calculateCentroid(landmarks, specificIndices)`: arithmetic mean of the
x and y coordinates over the given indices. -/
noncomputable def calculateCentroid (p : Pose) (idxs : List (Fin 21)) : ℝ × ℝ :=
  ((idxs.map fun i => (p i).x).sum / idxs.length,
   (idxs.map fun i => (p i).y).sum / idxs.length)

/-- `allTips = [4, 8, 12, 16, 20]`, the five fingertip indices. -/
def allTips : List (Fin 21) := [4, 8, 12, 16, 20]

/-- `areOthersCurled = !isMiddleExtended && !isRingExtended && !isPinkyExtended`
(middle = tip 12 / pip 10, ring = 16/14, pinky = 20/18). -/
noncomputable def AreOthersCurled (p : Pose) : Prop :=
  ¬ IsFingerExtended p 12 10 (palmScale p) ∧
  ¬ IsFingerExtended p 16 14 (palmScale p) ∧
  ¬ IsFingerExtended p 20 18 (palmScale p)

open Classical in
/-- The gesture decision of `processVideoFrame` step 3 together with
`pointingTipIndex`.  The source uses the sentinel `-1` for "no pointing tip";
it is modelled as `none`, and `8`/`4` as `some 8`/`some 4`. -/
noncomputable def gestureOf (p : Pose) : Gesture × Option (Fin 21) :=
  if AreOthersCurled p then
    if IsFingerExtended p 8 6 (palmScale p) then (Gesture.POINTING, some 8)
    else if IsThumbExtended p (palmScale p) then (Gesture.POINTING, some 4)
    else (Gesture.GENERAL, none)
  else (Gesture.GENERAL, none)

/-- `handSpread = ((Σ_{id ∈ allTips} hypot(landmarks[id] - centroid)) / 5) / palmScale`
(step 4 of `processVideoFrame`). -/
noncomputable def handSpreadOf (p : Pose) : ℝ :=
  ((allTips.map fun i =>
      hypot2 ((p i).x - (calculateCentroid p allTips).1)
             ((p i).y - (calculateCentroid p allTips).2)).sum / 5) / palmScale p

/-- Step 5 of `processVideoFrame`: the raw (un-mirrored) target point.
`if (gesture === 'POINTING' && pointingTipIndex !== -1)` the pointing tip
landmark, otherwise the fingertip centroid. -/
noncomputable def targetOf (p : Pose) : ℝ × ℝ :=
  match gestureOf p with
  | (Gesture.POINTING, some i) => ((p i).x, (p i).y)
  | _ => calculateCentroid p allTips

/-- The success branch of `processVideoFrame`:
`{ x: 1 - targetX, y: targetY, isDetected: true, gesture, handSpread }`. -/
noncomputable def computeResult (p : Pose) : HandTrackingResult :=
  { x := 1 - (targetOf p).1
    y := (targetOf p).2
    isDetected := true
    gesture := (gestureOf p).1
    handSpread := handSpreadOf p }

/-- Landmark-feature computation on a raw landmark list.  The source indexes
`landmarks[0] … landmarks[20]` at fixed indices (index 20 is always read, by
`isPinkyExtended` and the centroid) with no length check; on a shorter array
the first missing access yields `undefined` and the subsequent property read
throws, which the caller's `try`/`catch` converts to `noResult`.  This is
modelled as `Except`: the computation errors exactly when the list has fewer
than 21 entries, and otherwise runs the pure pipeline on the first 21. -/
noncomputable def computeResultE (lm : List Landmark) : Except Unit HandTrackingResult :=
  if h : 21 ≤ lm.length then
    .ok (computeResult fun i => lm.get ⟨i.1, lt_of_lt_of_le i.2 h⟩)
  else .error ()

/-- `processVideoFrame(video, debugCanvas?)`.  Inputs: whether the
`handLandmarker` is initialized, the video dimensions, and the outcome of
`detectForVideo` — `.error` if detection (or anything inside the `try`)
throws, `.ok none` if no landmarks are present, `.ok (some lm)` with the
first hand's landmark list otherwise.  The debug canvas is a pure
visualization side channel and is not modelled.  The function is total:
no error ever propagates to the caller. -/
noncomputable def processVideoFrame (hasLandmarker : Bool) (videoWidth videoHeight : ℕ)
    (detection : Except Unit (Option (List Landmark))) : HandTrackingResult :=
  if !hasLandmarker then noResult
  else if videoWidth = 0 ∨ videoHeight = 0 then noResult
  else
    match detection with
    | .error _ => noResult
    | .ok none => noResult
    | .ok (some lm) =>
        match computeResultE lm with
        | .ok r => r
        | .error _ => noResult

/-- The three particle formations.  `stateRef` in ChristmasTree.tsx holds
`0: Tree, 1: Explode, 2: Text`. -/
inductive FormState
  | TREE
  | EXPLODE
  | TEXT
deriving DecidableEq

/-- `stateRef = useRef<number>(0)`: the machine starts in the tree formation. -/
def initialFormState : FormState := .TREE

/-- The velocity-triggered transition rules of the gesture `useEffect`
(`EXPANSION_SPEED_THRESHOLD = 2`, `CONTRACTION_SPEED_THRESHOLD = -1`):
`velocity > 2` maps TREE to EXPLODE and TEXT to TREE; otherwise
`velocity < -1` maps EXPLODE to TEXT; every other combination is unchanged. -/
noncomputable def transitionTable (s : FormState) (velocity : ℝ) : FormState :=
  if velocity > 2 then
    match s with
    | .TREE => .EXPLODE
    | .TEXT => .TREE
    | .EXPLODE => .EXPLODE
  else if velocity < -1 then
    match s with
    | .EXPLODE => .TEXT
    | s' => s'
  else s

/-- The `controlsRef.current.autoRotate` writes performed inside the matching
transition branches: TREE→EXPLODE sets `false`, TEXT→TREE sets `true`,
EXPLODE→TEXT sets `false`; otherwise the flag is left as it was. -/
noncomputable def transitionAuto (s : FormState) (velocity : ℝ) (auto : Bool) : Bool :=
  if velocity > 2 then
    match s with
    | .TREE => false
    | .TEXT => true
    | .EXPLODE => auto
  else if velocity < -1 then
    match s with
    | .EXPLODE => false
    | _ => auto
  else auto

/-- The mutable refs of the formation state machine: `stateRef`,
`lastSpreadRef`, `lastVelocityTimeRef`, `lastSwitchTimeRef`
(times in milliseconds, as from `Date.now()`). -/
structure FSMState where
  state : FormState
  lastSpread : ℝ
  lastVelocityTime : ℝ
  lastSwitchTime : ℝ

/-- The velocity-switch section of the gesture `useEffect`, acting on the
machine refs.  `spread` is the already-normalized spread value, `now` the
tick timestamp in ms:
`timeDelta = (now - lastVelocityTime) / 1000`; if `timeDelta > 0.1`,
`velocity = (spread - lastSpread) / timeDelta`; if moreover
`now - lastSwitchTime > COOLDOWN_MS (= 800)` and the transition table moves
to a different state, the state and `lastSwitchTime` are updated; finally
`lastSpread`/`lastVelocityTime` are updated (only inside the
`timeDelta > 0.1` branch, as in the source). -/
noncomputable def fsmTick (m : FSMState) (spread now : ℝ) : FSMState :=
  let timeDelta := (now - m.lastVelocityTime) / 1000
  if timeDelta > 1 / 10 then
    let velocity := (spread - m.lastSpread) / timeDelta
    let m1 :=
      if now - m.lastSwitchTime > 800 then
        let nextState := transitionTable m.state velocity
        if nextState ≠ m.state then
          { m with state := nextState, lastSwitchTime := now }
        else m
      else m
    { m1 with lastSpread := spread, lastVelocityTime := now }
  else m

/-- `spread = Math.max(0, Math.min(1, (spread - 0.35) / 0.65))`: the raw
`handSpread` remapped into the normalized `[0,1]` control range. -/
noncomputable def clampSpread (s : ℝ) : ℝ :=
  max 0 (min 1 ((s - 35 / 100) / (65 / 100)))

/-- A three.js `Vector3`. -/
structure Vec3 where
  x : ℝ
  y : ℝ
  z : ℝ

/-- `Vector3.length()`. -/
noncomputable def norm3 (v : Vec3) : ℝ := Real.sqrt (v.x ^ 2 + v.y ^ 2 + v.z ^ 2)

/-- `Vector3.setLength(l)` = `normalize().multiplyScalar(l)`. -/
noncomputable def setLength (v : Vec3) (l : ℝ) : Vec3 :=
  ⟨v.x * (l / norm3 v), v.y * (l / norm3 v), v.z * (l / norm3 v)⟩

/-- `Vector3.lerp(target, alpha)`: `this += (target - this) * alpha`,
componentwise. -/
def lerp3 (v target : Vec3) (alpha : ℝ) : Vec3 :=
  ⟨v.x + (target.x - v.x) * alpha,
   v.y + (target.y - v.y) * alpha,
   v.z + (target.z - v.z) * alpha⟩

/-- Euclidean distance between two `Vec3`. -/
noncomputable def dist3 (a b : Vec3) : ℝ :=
  Real.sqrt ((a.x - b.x) ^ 2 + (a.y - b.y) ^ 2 + (a.z - b.z) ^ 2)

open Classical in
/-- One run of the body of the gesture `useEffect` in ChristmasTree.tsx
(one tick, fired per incoming `trackingResult`).  State threaded through:
the machine refs `m`, the `controls.autoRotate` flag, and the camera
position (with `controls.target` at the origin, where `lookAt(0,0,0)` keeps
it).  Sections, in source order:
1. zoom: `targetRadius = 200 - spread * 145` for the clamped spread, and the
   camera length eased by `0.1` via `setLength`;
2. velocity switch: `fsmTick`, plus the `autoRotate` writes of the matching
   transition branches (applied exactly when `timeDelta > 0.1` and the
   cooldown has elapsed);
3. pointing: if `gesture === 'POINTING' && isDetected`, auto-rotate is
   disabled and the camera position is eased (factor `0.1`) toward the
   spherical point at azimuth `-(x-0.5)*π*4`, polar `y*π`, radius
   `distanceTo(controls.target)`; otherwise auto-rotate is re-enabled
   (set to `true` unconditionally). -/
noncomputable def gestureEffect (m : FSMState) (auto : Bool) (pos : Vec3)
    (tr : HandTrackingResult) (now : ℝ) : FSMState × Bool × Vec3 :=
  let spread := clampSpread tr.handSpread
  let targetRadius := 200 - spread * 145
  let currentLen := norm3 pos
  let newLen := currentLen + (targetRadius - currentLen) * (1 / 10)
  let pos1 := setLength pos newLen
  let timeDelta := (now - m.lastVelocityTime) / 1000
  let m1 := fsmTick m spread now
  -- the auto-rotate writes of the transition branches; this intermediate
  -- value is dead in the source too, since section 3 below overwrites the
  -- flag unconditionally on every tick
  let _auto1 :=
    if timeDelta > 1 / 10 ∧ now - m.lastSwitchTime > 800 then
      transitionAuto m.state ((spread - m.lastSpread) / timeDelta) auto
    else auto
  if tr.gesture = Gesture.POINTING ∧ tr.isDetected = true then
    let targetAzimuth := -(tr.x - 1 / 2) * Real.pi * 4
    let targetPolar := tr.y * Real.pi
    let radius := norm3 pos1
    let tx := radius * Real.sin targetPolar * Real.sin targetAzimuth
    let ty := radius * Real.cos targetPolar
    let tz := radius * Real.sin targetPolar * Real.cos targetAzimuth
    (m1, false,
      ⟨pos1.x + (tx - pos1.x) * (1 / 10),
       pos1.y + (ty - pos1.y) * (1 / 10),
       pos1.z + (tz - pos1.z) * (1 / 10)⟩)
  else
    (m1, true, pos1)

/-- Target position selection in the `animate` loop:
`let target = p.treePos; if state === 1 target = p.explodePos;
else if state === 2 target = p.textPos`. -/
def targetForState (s : FormState) (treePos explodePos textPos : Vec3) : Vec3 :=
  match s with
  | .TREE => treePos
  | .EXPLODE => explodePos
  | .TEXT => textPos

/-- One `animate`-loop update of a particle's `currentPos`:
`p.currentPos.lerp(target, lerpSpeed)` with `lerpSpeed = 0.03`. -/
noncomputable def particleStep (target cur : Vec3) : Vec3 := lerp3 cur target (3 / 100)

/-!
### NaN-propagation model

The gesture pipeline performs no finiteness check on landmark coordinates.
To settle what the source does on a non-finite coordinate, the same pipeline
is embedded once more over `Option ℝ`, where `none` models IEEE NaN and
`some r` a finite value: arithmetic propagates NaN, `Math.hypot` of a NaN
(and otherwise finite) argument list is NaN, and every comparison involving
NaN is false.  (Infinities and division by zero are outside this model; no
input used below produces them.)
-/

/-- A JS number that is either finite (`some r`) or NaN (`none`). -/
abbrev FNum := Option ℝ

/-- NaN-propagating subtraction. -/
def fsub : FNum → FNum → FNum
  | some a, some b => some (a - b)
  | _, _ => none

/-- NaN-propagating addition. -/
def fadd : FNum → FNum → FNum
  | some a, some b => some (a + b)
  | _, _ => none

/-- NaN-propagating multiplication. -/
def fmul : FNum → FNum → FNum
  | some a, some b => some (a * b)
  | _, _ => none

/-- NaN-propagating division (finite denominators assumed nonzero where this
model is applied). -/
noncomputable def fdiv : FNum → FNum → FNum
  | some a, some b => some (a / b)
  | _, _ => none

/-- `Math.hypot` with NaN propagation (no infinite arguments in this model). -/
noncomputable def fhypot : FNum → FNum → FNum
  | some a, some b => some (Real.sqrt (a ^ 2 + b ^ 2))
  | _, _ => none

/-- `a > b` in JS: false whenever either side is NaN. -/
def FGt : FNum → FNum → Prop
  | some a, some b => a > b
  | _, _ => False

/-- A landmark with possibly non-finite coordinates (`z` is never read). -/
structure FLandmark where
  x : FNum
  y : FNum

/-- A 21-landmark pose over possibly non-finite numbers. -/
abbrev FPose := Fin 21 → FLandmark

/-- `HandTrackingResult` with possibly non-finite numeric fields. -/
structure FHandTrackingResult where
  x : FNum
  y : FNum
  isDetected : Bool
  gesture : Gesture
  handSpread : FNum

/-- `palmScale`, NaN-propagating. -/
noncomputable def fpalmScale (p : FPose) : FNum :=
  fhypot (fsub (p 0).x (p 9).x) (fsub (p 0).y (p 9).y)

/-- `isFingerExtended`, NaN-propagating. -/
noncomputable def FIsFingerExtended (p : FPose) (tipIdx pipIdx : Fin 21) (ps : FNum) : Prop :=
  FGt (fhypot (fsub (p tipIdx).x (p 0).x) (fsub (p tipIdx).y (p 0).y))
    (fadd (fhypot (fsub (p pipIdx).x (p 0).x) (fsub (p pipIdx).y (p 0).y))
      (fmul ps (some (15 / 100))))

/-- `isThumbExtended`, NaN-propagating. -/
noncomputable def FIsThumbExtended (p : FPose) (ps : FNum) : Prop :=
  FGt (fhypot (fsub (p 4).x (p 17).x) (fsub (p 4).y (p 17).y))
    (fadd (fhypot (fsub (p 3).x (p 17).x) (fsub (p 3).y (p 17).y))
      (fmul ps (some (1 / 10))))

/-- `calculateCentroid`, NaN-propagating. -/
noncomputable def fcentroid (p : FPose) (idxs : List (Fin 21)) : FNum × FNum :=
  (fdiv ((idxs.map fun i => (p i).x).foldl fadd (some 0)) (some idxs.length),
   fdiv ((idxs.map fun i => (p i).y).foldl fadd (some 0)) (some idxs.length))

/-- `areOthersCurled`, NaN-propagating. -/
noncomputable def FAreOthersCurled (p : FPose) : Prop :=
  ¬ FIsFingerExtended p 12 10 (fpalmScale p) ∧
  ¬ FIsFingerExtended p 16 14 (fpalmScale p) ∧
  ¬ FIsFingerExtended p 20 18 (fpalmScale p)

open Classical in
/-- The gesture decision, NaN-propagating. -/
noncomputable def fgestureOf (p : FPose) : Gesture × Option (Fin 21) :=
  if FAreOthersCurled p then
    if FIsFingerExtended p 8 6 (fpalmScale p) then (Gesture.POINTING, some 8)
    else if FIsThumbExtended p (fpalmScale p) then (Gesture.POINTING, some 4)
    else (Gesture.GENERAL, none)
  else (Gesture.GENERAL, none)

/-- `handSpread`, NaN-propagating. -/
noncomputable def fhandSpreadOf (p : FPose) : FNum :=
  fdiv
    (fdiv
      ((allTips.map fun i =>
          fhypot (fsub (p i).x (fcentroid p allTips).1)
                 (fsub (p i).y (fcentroid p allTips).2)).foldl fadd (some 0))
      (some 5))
    (fpalmScale p)

/-- The raw target point, NaN-propagating. -/
noncomputable def ftargetOf (p : FPose) : FNum × FNum :=
  match fgestureOf p with
  | (Gesture.POINTING, some i) => ((p i).x, (p i).y)
  | _ => fcentroid p allTips

/-- The success branch of `processVideoFrame`, NaN-propagating: note that a
pose reaching it yields `isDetected := true` unconditionally. -/
noncomputable def fcomputeResult (p : FPose) : FHandTrackingResult :=
  { x := fsub (some 1) (ftargetOf p).1
    y := (ftargetOf p).2
    isDetected := true
    gesture := (fgestureOf p).1
    handSpread := fhandSpreadOf p }

/-- A full 21-landmark pose whose wrist x-coordinate is NaN and whose other
coordinates are finite. -/
noncomputable def nanPose : FPose := fun i =>
  if i = 0 then ⟨none, some 0⟩ else ⟨some 1, some 0⟩

/-!
### Concrete witness poses

Both poses are "flat": every landmark has `y = 0` (and `z = 0`), so every
`Math.hypot` is an absolute difference of x-coordinates and evaluates
exactly.
-/

/-- x-coordinates of a pointing pose: wrist at 0, middle MCP at 1
(palm scale 1), index tip at 2, everything else at 1.  Index is extended
(2 > 1 + 0.15); middle/ring/pinky and the thumb are not. -/
noncomputable def pxIndex (i : Fin 21) : ℝ :=
  if i = 0 then 0 else if i = 8 then 2 else 1

/-- A flat pose that points with the index finger. -/
noncomputable def poseIndex : Pose := fun i => ⟨pxIndex i, 0, 0⟩

/-- The same pose with arbitrary (index-dependent) z-coordinates. -/
noncomputable def poseIndexZ : Pose := fun i => ⟨pxIndex i, 0, (i : ℕ) + 5⟩

/-- x-coordinates of a pointing pose whose index tip sits at `x = 0.75`:
wrist at 0, middle MCP at 1/4 (palm scale 1/4), index PIP at 1/2, index tip
at 3/4, everything else at 1/2.  Index is extended
(3/4 > 1/2 + (1/4)·0.15); middle/ring/pinky and the thumb are not. -/
noncomputable def px75 (i : Fin 21) : ℝ :=
  if i = 0 then 0 else if i = 9 then 1 / 4 else if i = 8 then 3 / 4 else 1 / 2

/-- A flat pose pointing with the index tip at `x = 0.75`. -/
noncomputable def pose75 : Pose := fun i => ⟨px75 i, 0, 0⟩

/-!
### Helper lemmas
-/

/-- On a flat configuration (`dy = 0`) `Math.hypot` is an absolute value. -/
lemma hypot2_of_zero (d : ℝ) : hypot2 d 0 = |d| := by
  simp [hypot2, Real.sqrt_sq_eq_abs]

/-- On a flat configuration with a nonnegative difference, `Math.hypot` is
the difference itself. -/
lemma hypot2_of_zero_nonneg (d : ℝ) (h : 0 ≤ d) : hypot2 d 0 = d := by
  rw [hypot2_of_zero, abs_of_nonneg h]

lemma palmScale_poseIndex : palmScale poseIndex = 1 := by
  simp [palmScale, poseIndex, pxIndex, hypot2_of_zero]

lemma indexExt_poseIndex : IsFingerExtended poseIndex 8 6 (palmScale poseIndex) := by
  rw [palmScale_poseIndex]
  norm_num +decide [IsFingerExtended, poseIndex, pxIndex, hypot2_of_zero]

lemma othersCurled_poseIndex : AreOthersCurled poseIndex := by
  refine ⟨?_, ?_, ?_⟩ <;>
    · rw [palmScale_poseIndex]
      norm_num +decide [IsFingerExtended, poseIndex, pxIndex, hypot2_of_zero]

lemma gestureOf_poseIndex : gestureOf poseIndex = (Gesture.POINTING, some 8) := by
  unfold gestureOf
  rw [if_pos othersCurled_poseIndex, if_pos indexExt_poseIndex]

/-!
### Claim theorems
-/

/-- **C1.**  For every detected 21-landmark pose, the gesture classifier
applies exactly this priority order: if middle, ring and pinky are all not
extended and the index finger is extended, the gesture is POINTING with
target = the index-tip landmark (index 8), regardless of thumb state; else
if middle, ring and pinky are all not extended and the thumb is extended,
the gesture is POINTING with target = the thumb-tip landmark (index 4); in
every other case the gesture is GENERAL with target = the centroid of the
five fingertip landmarks {4,8,12,16,20}.  (The produced `x` is the
horizontal mirror `1 - target.x`, `y` is the raw target `y`.) -/
theorem C1_gesture_priority (p : Pose) :
    (AreOthersCurled p → IsFingerExtended p 8 6 (palmScale p) →
      (computeResult p).gesture = Gesture.POINTING ∧
      (computeResult p).x = 1 - (p 8).x ∧ (computeResult p).y = (p 8).y) ∧
    (AreOthersCurled p → ¬ IsFingerExtended p 8 6 (palmScale p) →
      IsThumbExtended p (palmScale p) →
      (computeResult p).gesture = Gesture.POINTING ∧
      (computeResult p).x = 1 - (p 4).x ∧ (computeResult p).y = (p 4).y) ∧
    (¬ (AreOthersCurled p ∧ IsFingerExtended p 8 6 (palmScale p)) →
     ¬ (AreOthersCurled p ∧ IsThumbExtended p (palmScale p)) →
      (computeResult p).gesture = Gesture.GENERAL ∧
      (computeResult p).x = 1 - (calculateCentroid p allTips).1 ∧
      (computeResult p).y = (calculateCentroid p allTips).2) := by
  refine ⟨?_, ?_, ?_⟩
  · intro hoc hidx
    have hg : gestureOf p = (Gesture.POINTING, some 8) := by
      unfold gestureOf
      rw [if_pos hoc, if_pos hidx]
    simp [computeResult, targetOf, hg]
  · intro hoc hidx hth
    have hg : gestureOf p = (Gesture.POINTING, some 4) := by
      unfold gestureOf
      rw [if_pos hoc, if_neg hidx, if_pos hth]
    simp [computeResult, targetOf, hg]
  · intro h1 h2
    have hg : gestureOf p = (Gesture.GENERAL, none) := by
      unfold gestureOf
      by_cases hoc : AreOthersCurled p
      · rw [if_pos hoc, if_neg fun h => h1 ⟨hoc, h⟩, if_neg fun h => h2 ⟨hoc, h⟩]
      · rw [if_neg hoc]
    simp [computeResult, targetOf, hg]

/-- Witness for C1: a concrete flat pose with only the index finger
extended is classified POINTING with the index tip as target. -/
theorem C1_gesture_priority_witness :
    AreOthersCurled poseIndex ∧ IsFingerExtended poseIndex 8 6 (palmScale poseIndex) ∧
    (computeResult poseIndex).gesture = Gesture.POINTING ∧
    (computeResult poseIndex).x = 1 - (poseIndex 8).x := by
  have h := (C1_gesture_priority poseIndex).1 othersCurled_poseIndex indexExt_poseIndex
  exact ⟨othersCurled_poseIndex, indexExt_poseIndex, h.1, h.2.1⟩

/-- **C3.**  For every frame: no pose, zero-width, zero-height, a detection
exception, or a feature-computation exception all yield exactly the neutral
result `{x: 0.5, y: 0.5, isDetected: false, gesture: NONE, handSpread: 0}`;
no error propagates (the producer is a total function); and in the
zero-dimension case the result is `noResult` for *every* detection outcome,
i.e. the early return happens before any feature computation. -/
theorem C3_neutral_on_failure :
    (∀ (h : ℕ) (d : Except Unit (Option (List Landmark))),
      processVideoFrame true 0 h d = noResult) ∧
    (∀ (w : ℕ) (d : Except Unit (Option (List Landmark))),
      processVideoFrame true w 0 d = noResult) ∧
    (∀ (w h : ℕ) (e : Unit), processVideoFrame true w h (.error e) = noResult) ∧
    (∀ (w h : ℕ), processVideoFrame true w h (.ok none) = noResult) ∧
    (∀ (w h : ℕ) (lm : List Landmark), computeResultE lm = .error () →
      processVideoFrame true w h (.ok (some lm)) = noResult) := by
  refine ⟨?_, ?_, ?_, ?_, ?_⟩
  · intro h d
    simp [processVideoFrame]
  · intro w d
    simp [processVideoFrame]
  · intro w h e
    unfold processVideoFrame
    split_ifs <;> rfl
  · intro w h
    unfold processVideoFrame
    split_ifs <;> rfl
  · intro w h lm he
    unfold processVideoFrame
    split_ifs <;> simp [he]

/-- Witness for C3: the empty landmark list makes the feature computation
fail, and the producer returns the neutral result. -/
theorem C3_neutral_on_failure_witness :
    computeResultE [] = .error () ∧
    processVideoFrame true 4 3 (.ok (some [])) = noResult := by
  have he : computeResultE [] = .error () := by
    unfold computeResultE
    rw [dif_neg]
    simp
  exact ⟨he, C3_neutral_on_failure.2.2.2.2 4 3 [] he⟩

/-- **C10.**  The entire tracking output — gesture label, target point and
handSpread — depends only on the x and y coordinates of the 21 landmarks:
two poses identical in x and y but arbitrary in z produce identical
results. -/
theorem C10_z_independence (p q : Pose)
    (hx : ∀ i, (p i).x = (q i).x) (hy : ∀ i, (p i).y = (q i).y) :
    computeResult p = computeResult q := by
  have hps : palmScale p = palmScale q := by
    simp [palmScale, hx, hy]
  have hfe : ∀ tipIdx pipIdx s,
      IsFingerExtended p tipIdx pipIdx s ↔ IsFingerExtended q tipIdx pipIdx s := by
    intro tipIdx pipIdx s
    simp [IsFingerExtended, hx, hy]
  have hth : ∀ s, IsThumbExtended p s ↔ IsThumbExtended q s := by
    intro s
    simp [IsThumbExtended, hx, hy]
  have hoc : AreOthersCurled p ↔ AreOthersCurled q := by
    simp [AreOthersCurled, hfe, hps]
  have hg : gestureOf p = gestureOf q := by
    unfold gestureOf
    rw [propext hoc, propext (hfe 8 6 (palmScale p)), propext (hth (palmScale p)), hps]
  have hcent : calculateCentroid p allTips = calculateCentroid q allTips := by
    simp [calculateCentroid, hx, hy]
  have hsp : handSpreadOf p = handSpreadOf q := by
    simp [handSpreadOf, hx, hy, hcent, hps]
  have htg : targetOf p = targetOf q := by
    unfold targetOf
    rw [hg, hcent]
    rcases gestureOf q with ⟨g, i⟩
    cases g <;> cases i <;> simp [hx, hy]
  simp [computeResult, htg, hg, hsp]

/-- Witness for C10: the flat index-pointing pose and its variant with
index-dependent nonzero z-coordinates give the same tracking result. -/
theorem C10_z_independence_witness :
    computeResult poseIndex = computeResult poseIndexZ :=
  C10_z_independence poseIndex poseIndexZ (fun _ => rfl) (fun _ => rfl)

lemma fsmTick_lastSwitch_of_change (m : FSMState) (s t : ℝ)
    (h : (fsmTick m s t).state ≠ m.state) : (fsmTick m s t).lastSwitchTime = t := by
  simp only [fsmTick] at h ⊢
  by_cases hd : (t - m.lastVelocityTime) / 1000 > 1 / 10
  · rw [if_pos hd] at h ⊢
    by_cases hcd : t - m.lastSwitchTime > 800
    · rw [if_pos hcd] at h ⊢
      by_cases hch :
          transitionTable m.state ((s - m.lastSpread) / ((t - m.lastVelocityTime) / 1000)) ≠
            m.state
      · rw [if_pos hch]
      · rw [if_neg hch] at h
        exact absurd rfl h
    · rw [if_neg hcd] at h
      exact absurd rfl h
  · rw [if_neg hd] at h
    exact absurd rfl h

lemma fsmTick_state_of_no_cooldown (m : FSMState) (s t : ℝ)
    (h : ¬ (t - m.lastSwitchTime > 800)) : (fsmTick m s t).state = m.state := by
  simp only [fsmTick]
  by_cases hd : (t - m.lastVelocityTime) / 1000 > 1 / 10
  · rw [if_pos hd, if_neg h]
  · rw [if_neg hd]

/-- **C2.**  The formation state machine starts in TREE; given cooldown
elapsed and velocity defined, velocity > 2 moves TREE→EXPLODE and
TEXT→TREE, velocity < −1 moves EXPLODE→TEXT, and every other
(state, velocity) combination leaves the state unchanged — in particular a
velocity sequence staying within [−1, 2] never changes the state. -/
theorem C2_state_machine :
    initialFormState = FormState.TREE ∧
    (∀ v : ℝ, v > 2 →
      transitionTable .TREE v = .EXPLODE ∧
      transitionTable .TEXT v = .TREE ∧
      transitionTable .EXPLODE v = .EXPLODE) ∧
    (∀ v : ℝ, v < -1 →
      transitionTable .EXPLODE v = .TEXT ∧
      transitionTable .TREE v = .TREE ∧
      transitionTable .TEXT v = .TEXT) ∧
    (∀ v : ℝ, -1 ≤ v → v ≤ 2 → ∀ s, transitionTable s v = s) ∧
    (∀ (l : List ℝ) (s : FormState), (∀ v ∈ l, -1 ≤ v ∧ v ≤ 2) →
      l.foldl transitionTable s = s) := by
  have hmid : ∀ v : ℝ, -1 ≤ v → v ≤ 2 → ∀ s, transitionTable s v = s := by
    intro v h1 h2 s
    have hv2 : ¬ v > 2 := by linarith
    have hv1 : ¬ v < -1 := by linarith
    unfold transitionTable
    rw [if_neg hv2, if_neg hv1]
  have hfold : ∀ (l : List ℝ) (s : FormState), (∀ v ∈ l, -1 ≤ v ∧ v ≤ 2) →
      l.foldl transitionTable s = s := by
    intro l
    induction l with
    | nil => intro s _; rfl
    | cons v t ih =>
        intro s hmem
        have hv := hmem v (List.mem_cons_self _ _)
        rw [List.foldl_cons, hmid v hv.1 hv.2 s]
        exact ih s fun u hu => hmem u (List.mem_cons_of_mem _ hu)
  refine ⟨rfl, ?_, ?_, hmid, hfold⟩
  · intro v hv
    refine ⟨?_, ?_, ?_⟩ <;>
      · unfold transitionTable
        rw [if_pos hv]
  · intro v hv
    have hv2 : ¬ v > 2 := by linarith
    refine ⟨?_, ?_, ?_⟩ <;>
      · unfold transitionTable
        rw [if_neg hv2, if_pos hv]

/-- Witness for C2: concrete velocities exercising the expand rule, the
contract rule, and a sequence inside [−1, 2] that leaves TREE unchanged. -/
theorem C2_state_machine_witness :
    ((3 : ℝ) > 2 ∧ transitionTable .TREE 3 = .EXPLODE) ∧
    ((-2 : ℝ) < -1 ∧ transitionTable .EXPLODE (-2) = .TEXT) ∧
    ([0, 1] : List ℝ).foldl transitionTable .TREE = .TREE := by
  refine ⟨⟨by norm_num, (C2_state_machine.2.1 3 (by norm_num)).1⟩,
          ⟨by norm_num, (C2_state_machine.2.2.1 (-2) (by norm_num)).1⟩,
          C2_state_machine.2.2.2.2 [0, 1] .TREE ?_⟩
  intro v hv
  fin_cases hv <;> norm_num

/-- **C4.**  A formation transition fires only if more than 800 ms have
elapsed since the last successful transition: if a tick at time `t1` fires a
transition, a second tick less than 800 ms later cannot change the state
again — exactly one transition occurs, not two. -/
theorem C4_cooldown (m : FSMState) (s1 t1 s2 t2 : ℝ)
    (hfire : (fsmTick m s1 t1).state ≠ m.state) (hgap : t2 - t1 < 800) :
    (fsmTick (fsmTick m s1 t1) s2 t2).state = (fsmTick m s1 t1).state := by
  apply fsmTick_state_of_no_cooldown
  rw [fsmTick_lastSwitch_of_change m s1 t1 hfire]
  linarith

lemma fsmTick_eval_expand :
    fsmTick ⟨.TREE, 0, 0, 0⟩ 3 1000 = ⟨.EXPLODE, 3, 1000, 1000⟩ := by
  norm_num +decide [fsmTick, transitionTable]

/-- Witness for C4: from a fresh TREE machine, a velocity-3 tick at
t = 1000 ms fires TREE→EXPLODE; a qualifying tick 500 ms later leaves the
state at EXPLODE. -/
theorem C4_cooldown_witness :
    (fsmTick ⟨.TREE, 0, 0, 0⟩ 3 1000).state ≠ FormState.TREE ∧
    (1500 : ℝ) - 1000 < 800 ∧
    (fsmTick (fsmTick ⟨.TREE, 0, 0, 0⟩ 3 1000) 0 1500).state =
      (fsmTick ⟨.TREE, 0, 0, 0⟩ 3 1000).state := by
  have h1 : (fsmTick ⟨.TREE, 0, 0, 0⟩ 3 1000).state ≠ FormState.TREE := by
    simp [fsmTick_eval_expand]
  exact ⟨h1, by norm_num, C4_cooldown ⟨.TREE, 0, 0, 0⟩ 3 1000 0 1500 h1 (by norm_num)⟩

lemma gestureEffect_fst (m : FSMState) (auto : Bool) (pos : Vec3)
    (tr : HandTrackingResult) (now : ℝ) :
    (gestureEffect m auto pos tr now).1 = fsmTick m (clampSpread tr.handSpread) now := by
  simp only [gestureEffect]
  by_cases hp : tr.gesture = Gesture.POINTING ∧ tr.isDetected = true
  · rw [if_pos hp]
  · rw [if_neg hp]

lemma gestureEffect_autoRotate (m : FSMState) (auto : Bool) (pos : Vec3)
    (tr : HandTrackingResult) (now : ℝ) :
    (gestureEffect m auto pos tr now).2.1 =
      if tr.gesture = Gesture.POINTING ∧ tr.isDetected = true then false else true := by
  simp only [gestureEffect]
  by_cases hp : tr.gesture = Gesture.POINTING ∧ tr.isDetected = true
  · rw [if_pos hp, if_pos hp]
  · rw [if_neg hp, if_neg hp]

lemma fsmTick_state_transition (m : FSMState) (s t : ℝ)
    (hd : (t - m.lastVelocityTime) / 1000 > 1 / 10)
    (hcd : t - m.lastSwitchTime > 800) :
    (fsmTick m s t).state =
      transitionTable m.state ((s - m.lastSpread) / ((t - m.lastVelocityTime) / 1000)) := by
  simp only [fsmTick]
  rw [if_pos hd, if_pos hcd]
  by_cases hch :
      transitionTable m.state ((s - m.lastSpread) / ((t - m.lastVelocityTime) / 1000)) ≠ m.state
  · rw [if_pos hch]
  · rw [if_neg hch]
    exact (not_ne_iff.mp hch).symm

/-- **C6, counterexample.**  A TREE tick with qualifying expansion velocity
(here 5 > 2, cooldown elapsed, velocity defined) whose frame carries a
GENERAL gesture: the machine does move to EXPLODE, but at the end of the
tick the auto-rotate flag is `true` (re-enabled by the non-POINTING branch),
not disabled as the claim states. -/
theorem C6_counterexample :
    (gestureEffect ⟨.TREE, 0, 1000, 0⟩ true ⟨0, 0, 90⟩
        ⟨1 / 2, 1 / 2, true, .GENERAL, 1⟩ 1200).1.state = FormState.EXPLODE ∧
    (gestureEffect ⟨.TREE, 0, 1000, 0⟩ true ⟨0, 0, 90⟩
        ⟨1 / 2, 1 / 2, true, .GENERAL, 1⟩ 1200).2.1 = true := by
  have hcl : clampSpread (1 : ℝ) = 1 := by
    norm_num [clampSpread, min_def, max_def]
  constructor
  · rw [gestureEffect_fst]
    show (fsmTick ⟨.TREE, 0, 1000, 0⟩ (clampSpread 1) 1200).state = FormState.EXPLODE
    rw [hcl, fsmTick_state_transition _ _ _ (by norm_num) (by norm_num)]
    norm_num [transitionTable]
  · rw [gestureEffect_autoRotate]
    simp

/-- **C6, amended.**  After a tick in state TREE with qualifying expansion
velocity (cooldown elapsed, velocity defined) the machine is in EXPLODE; the
TREE→EXPLODE branch writes auto-rotate := false, but the per-frame pointing
branch then overwrites the flag, so at the end of the tick auto-rotate is
disabled iff that frame's gesture is POINTING with `isDetected`. -/
theorem C6_amended (m : FSMState) (auto : Bool) (pos : Vec3)
    (tr : HandTrackingResult) (now : ℝ)
    (hstate : m.state = .TREE)
    (hd : (now - m.lastVelocityTime) / 1000 > 1 / 10)
    (hcd : now - m.lastSwitchTime > 800)
    (hv : (clampSpread tr.handSpread - m.lastSpread) / ((now - m.lastVelocityTime) / 1000) > 2) :
    (gestureEffect m auto pos tr now).1.state = FormState.EXPLODE ∧
    ((gestureEffect m auto pos tr now).2.1 = false ↔
      tr.gesture = Gesture.POINTING ∧ tr.isDetected = true) := by
  constructor
  · rw [gestureEffect_fst, fsmTick_state_transition m _ now hd hcd, hstate]
    unfold transitionTable
    rw [if_pos hv]
  · rw [gestureEffect_autoRotate]
    by_cases hp : tr.gesture = Gesture.POINTING ∧ tr.isDetected = true
    · simp [hp]
    · simp [hp]

/-- Witness for the amended C6: the same qualifying TREE tick carrying a
POINTING frame ends with state EXPLODE and auto-rotate disabled. -/
theorem C6_amended_witness :
    (gestureEffect ⟨.TREE, 0, 1000, 0⟩ true ⟨0, 0, 90⟩
        ⟨1 / 4, 1 / 2, true, .POINTING, 1⟩ 1200).1.state = FormState.EXPLODE ∧
    (gestureEffect ⟨.TREE, 0, 1000, 0⟩ true ⟨0, 0, 90⟩
        ⟨1 / 4, 1 / 2, true, .POINTING, 1⟩ 1200).2.1 = false := by
  have h := C6_amended ⟨.TREE, 0, 1000, 0⟩ true ⟨0, 0, 90⟩
    ⟨1 / 4, 1 / 2, true, .POINTING, 1⟩ 1200 rfl (by norm_num) (by norm_num)
    (by norm_num [clampSpread, min_def, max_def])
  exact ⟨h.1, h.2.mpr ⟨rfl, rfl⟩⟩

lemma fsmTick_zero_spread (m : FSMState) (t : ℝ) (h : m.lastSpread = 0) :
    (fsmTick m 0 t).state = m.state ∧ (fsmTick m 0 t).lastSpread = 0 := by
  simp only [fsmTick]
  by_cases hd : (t - m.lastVelocityTime) / 1000 > 1 / 10
  · rw [if_pos hd]
    by_cases hcd : t - m.lastSwitchTime > 800
    · rw [if_pos hcd]
      have ht : transitionTable m.state
          ((0 - m.lastSpread) / ((t - m.lastVelocityTime) / 1000)) = m.state := by
        rw [h, show ((0 : ℝ) - 0) / ((t - m.lastVelocityTime) / 1000) = 0 by ring]
        unfold transitionTable
        norm_num
      rw [if_neg (not_ne_iff.mpr ht)]
      exact ⟨rfl, rfl⟩
    · rw [if_neg hcd]
      exact ⟨rfl, rfl⟩
  · rw [if_neg hd]
    exact ⟨rfl, h⟩

lemma foldl_fsmTick_zero (ts : List ℝ) : ∀ m : FSMState, m.lastSpread = 0 →
    (ts.foldl (fun mm t => fsmTick mm 0 t) m).state = m.state ∧
    (ts.foldl (fun mm t => fsmTick mm 0 t) m).lastSpread = 0 := by
  induction ts with
  | nil => exact fun m h => ⟨rfl, h⟩
  | cons t rest ih =>
      intro m h
      rw [List.foldl_cons]
      have h1 := fsmTick_zero_spread m t h
      have h2 := ih (fsmTick m 0 t) h1.2
      exact ⟨h2.1.trans h1.1, h2.2⟩

lemma fsmTick_eval_absent :
    fsmTick ⟨.EXPLODE, 1, 1000, 0⟩ 0 1200 = ⟨.TEXT, 0, 1200, 1200⟩ := by
  norm_num +decide [fsmTick, transitionTable]

/-- **C7, counterexample.**  Ten consecutive absent-hand ticks (spread 0)
starting from the reachable machine state (EXPLODE, lastSpread 1,
lastVelocityTime 1000, lastSwitchTime 0): the first tick computes velocity
(0−1)/0.2 = −5 < −1 with cooldown elapsed and fires EXPLODE→TEXT, so the
formation state after the ten ticks differs from the state before them. -/
theorem C7_counterexample :
    (([1200, 1400, 1600, 1800, 2000, 2200, 2400, 2600, 2800, 3000] : List ℝ).foldl
        (fun mm t => fsmTick mm 0 t) ⟨.EXPLODE, 1, 1000, 0⟩).state = FormState.TEXT ∧
    FormState.TEXT ≠ FormState.EXPLODE := by
  constructor
  · rw [List.foldl_cons]
    exact (foldl_fsmTick_zero [1400, 1600, 1800, 2000, 2200, 2400, 2600, 2800, 3000]
      (fsmTick ⟨.EXPLODE, 1, 1000, 0⟩ 0 1200)
      (by rw [fsmTick_eval_absent])).1.trans (by rw [fsmTick_eval_absent])
  · decide

/-- **C7, amended.**  Absent-hand ticks produce exactly the neutral result
every tick, and the formation state is unchanged by them provided the
machine's stored `lastSpread` is 0 when the absence begins (as it is from
the first absent velocity sample onward); in general, a reachable prior
state with positive stored spread may fire one EXPLODE→TEXT transition on
the first absent-hand velocity sample. -/
theorem C7_amended :
    (∀ w h : ℕ, processVideoFrame true w h (.ok none) = noResult) ∧
    clampSpread noResult.handSpread = 0 ∧
    (∀ m : FSMState, m.lastSpread = 0 → ∀ ts : List ℝ,
      (ts.foldl (fun mm t => fsmTick mm (clampSpread noResult.handSpread) t) m).state
        = m.state) := by
  have hcl : clampSpread noResult.handSpread = 0 := by
    norm_num [clampSpread, noResult, min_def, max_def]
  refine ⟨?_, hcl, ?_⟩
  · intro w h
    unfold processVideoFrame
    split_ifs <;> rfl
  · intro m hm ts
    simp only [hcl]
    exact (foldl_fsmTick_zero ts m hm).1

/-- Witness for the amended C7: two absent-hand ticks on a fresh TREE
machine leave the state at TREE, and the frame output is neutral. -/
theorem C7_amended_witness :
    processVideoFrame true 4 3 (.ok none) = noResult ∧
    (([100, 300] : List ℝ).foldl
        (fun mm t => fsmTick mm (clampSpread noResult.handSpread) t)
        ⟨.TREE, 0, 0, 0⟩).state = FormState.TREE :=
  ⟨C7_amended.1 4 3, C7_amended.2.2 ⟨.TREE, 0, 0, 0⟩ rfl [100, 300]⟩

lemma palmScale_pose75 : palmScale pose75 = 1 / 4 := by
  norm_num +decide [palmScale, pose75, px75, hypot2_of_zero]

lemma indexExt_pose75 : IsFingerExtended pose75 8 6 (palmScale pose75) := by
  rw [palmScale_pose75]
  norm_num +decide [IsFingerExtended, pose75, px75, hypot2_of_zero_nonneg]

lemma othersCurled_pose75 : AreOthersCurled pose75 := by
  refine ⟨?_, ?_, ?_⟩ <;>
    · rw [palmScale_pose75]
      norm_num +decide [IsFingerExtended, pose75, px75, hypot2_of_zero_nonneg]

lemma gestureOf_pose75 : gestureOf pose75 = (Gesture.POINTING, some 8) := by
  unfold gestureOf
  rw [if_pos othersCurled_pose75, if_pos indexExt_pose75]

/-- **C5.**  For every detected frame the output x is the horizontal mirror
of the raw target x while y passes through unmirrored; when the gesture is
POINTING with `isDetected`, camera steering disables auto-rotate and eases
the camera (factor 0.1 per frame) toward the spherical point at azimuth
`-(x−0.5)·4π` and polar `y·π` at the current orbit radius, while the zoomed
orbit-radius target is `200 − 145·clamp((spread−0.35)/0.65, 0, 1)`; and a
raw pointing target at x = 0.75 yields mirrored output 0.25 and azimuth π. -/
theorem C5_mirror_camera :
    (∀ p : Pose,
      (computeResult p).x = 1 - (targetOf p).1 ∧ (computeResult p).y = (targetOf p).2) ∧
    (∀ (m : FSMState) (auto : Bool) (pos : Vec3) (tr : HandTrackingResult) (now : ℝ),
      tr.gesture = Gesture.POINTING → tr.isDetected = true →
      (gestureEffect m auto pos tr now).2.1 = false ∧
      (gestureEffect m auto pos tr now).2.2 =
        (let pos1 := setLength pos
            (norm3 pos + ((200 - 145 * clampSpread tr.handSpread) - norm3 pos) * (1 / 10));
         let az := -(tr.x - 1 / 2) * (4 * Real.pi);
         let pol := tr.y * Real.pi;
         let r := norm3 pos1;
         lerp3 pos1
           ⟨r * Real.sin pol * Real.sin az, r * Real.cos pol, r * Real.sin pol * Real.cos az⟩
           (1 / 10))) ∧
    ((computeResult pose75).gesture = Gesture.POINTING ∧
     (computeResult pose75).isDetected = true ∧
     (computeResult pose75).x = 1 / 4 ∧
     -((computeResult pose75).x - 1 / 2) * (4 * Real.pi) = Real.pi) := by
  refine ⟨fun p => ⟨rfl, rfl⟩, ?_, ?_⟩
  · intro m auto pos tr now hg hd
    have hp : tr.gesture = Gesture.POINTING ∧ tr.isDetected = true := ⟨hg, hd⟩
    simp only [gestureEffect]
    rw [if_pos hp]
    refine ⟨rfl, ?_⟩
    have hrad : (200 : ℝ) - clampSpread tr.handSpread * 145 =
        200 - 145 * clampSpread tr.handSpread := by ring
    have haz : -(tr.x - 1 / 2) * Real.pi * 4 = -(tr.x - 1 / 2) * (4 * Real.pi) := by ring
    simp only [lerp3]
    rw [hrad, haz]
  · have hx : (computeResult pose75).x = 1 / 4 := by
      simp only [computeResult, targetOf, gestureOf_pose75]
      norm_num +decide [pose75, px75]
    refine ⟨?_, rfl, hx, ?_⟩
    · simp [computeResult, gestureOf_pose75]
    · rw [hx]
      ring

/-- Witness for C5: a concrete POINTING frame disables auto-rotate in the
camera-steering tick. -/
theorem C5_mirror_camera_witness :
    (gestureEffect ⟨.TREE, 0, 0, 0⟩ true ⟨0, 0, 90⟩
        ⟨1 / 4, 1 / 2, true, .POINTING, 1⟩ 0).2.1 = false :=
  (C5_mirror_camera.2.1 ⟨.TREE, 0, 0, 0⟩ true ⟨0, 0, 90⟩
    ⟨1 / 4, 1 / 2, true, .POINTING, 1⟩ 0 rfl rfl).1

lemma fdiv_none (x : FNum) : fdiv x none = none := by
  cases x <;> rfl

lemma fpalmScale_nanPose : fpalmScale nanPose = none := rfl

lemma fhandSpread_nanPose : fhandSpreadOf nanPose = none := by
  unfold fhandSpreadOf
  rw [fpalmScale_nanPose, fdiv_none]

lemma FAreOthersCurled_nanPose : FAreOthersCurled nanPose :=
  ⟨fun h => h, fun h => h, fun h => h⟩

lemma not_FIndexExt_nanPose : ¬ FIsFingerExtended nanPose 8 6 (fpalmScale nanPose) :=
  fun h => h

lemma not_FThumbExt_nanPose : ¬ FIsThumbExtended nanPose (fpalmScale nanPose) :=
  fun h => h

lemma fgestureOf_nanPose : fgestureOf nanPose = (Gesture.GENERAL, none) := by
  unfold fgestureOf
  rw [if_pos FAreOthersCurled_nanPose, if_neg not_FIndexExt_nanPose,
    if_neg not_FThumbExt_nanPose]

/-- **C8, counterexample.**  The pipeline performs no finiteness check: on a
full 21-landmark pose whose wrist x-coordinate is NaN, the NaN-semantics
pipeline still returns `isDetected = true` (with gesture GENERAL, since all
NaN comparisons are false) and a non-finite (NaN) `handSpread` — the claim
that it "never returns isDetected=true with non-finite x, y or handSpread"
fails. -/
theorem C8_counterexample :
    (fcomputeResult nanPose).isDetected = true ∧
    (fcomputeResult nanPose).gesture = Gesture.GENERAL ∧
    (fcomputeResult nanPose).handSpread = none := by
  refine ⟨rfl, ?_, fhandSpread_nanPose⟩
  simp [fcomputeResult, fgestureOf_nanPose]

/-- **C8, amended.**  A pose with fewer than 21 landmarks makes the feature
computation fail (the missing landmark access throws) and the producer
returns the neutral no-detection result; but coordinates are never validated
for finiteness: a full pose containing a NaN coordinate is processed
arithmetically and can return `isDetected = true` with NaN `handSpread`. -/
theorem C8_amended :
    (∀ lm : List Landmark, lm.length < 21 → computeResultE lm = .error ()) ∧
    (∀ (w h : ℕ) (lm : List Landmark), lm.length < 21 →
      processVideoFrame true w h (.ok (some lm)) = noResult) ∧
    ((fcomputeResult nanPose).isDetected = true ∧
     (fcomputeResult nanPose).handSpread = none) := by
  have herr : ∀ lm : List Landmark, lm.length < 21 → computeResultE lm = .error () := by
    intro lm hlen
    unfold computeResultE
    rw [dif_neg (by omega)]
  refine ⟨herr, ?_, rfl, fhandSpread_nanPose⟩
  intro w h lm hlen
  unfold processVideoFrame
  split_ifs <;> simp [herr lm hlen]

/-- Witness for the amended C8: the empty landmark list errors and the frame
producer degrades to the neutral result. -/
theorem C8_amended_witness :
    ([] : List Landmark).length < 21 ∧
    computeResultE [] = .error () ∧
    processVideoFrame true 5 5 (.ok (some [])) = noResult :=
  ⟨by norm_num, C8_amended.1 [] (by norm_num), C8_amended.2.1 5 5 [] (by norm_num)⟩

lemma particleStep_dist (T c : Vec3) :
    dist3 (particleStep T c) T = (97 / 100) * dist3 c T := by
  unfold particleStep lerp3 dist3
  have h : (c.x + (T.x - c.x) * (3 / 100) - T.x) ^ 2 +
        (c.y + (T.y - c.y) * (3 / 100) - T.y) ^ 2 +
        (c.z + (T.z - c.z) * (3 / 100) - T.z) ^ 2 =
      (97 / 100) ^ 2 * ((c.x - T.x) ^ 2 + (c.y - T.y) ^ 2 + (c.z - T.z) ^ 2) := by
    ring
  rw [h, Real.sqrt_mul (by positivity), Real.sqrt_sq (by norm_num)]

lemma particleIter_dist (T c : Vec3) (n : ℕ) :
    dist3 ((particleStep T)^[n] c) T = (97 / 100) ^ n * dist3 c T := by
  induction n with
  | zero => simp
  | succ k ih =>
      rw [Function.iterate_succ_apply', particleStep_dist, ih, pow_succ]
      ring

/-- **C9.**  With the formation state held fixed, each tick lerps a
particle's current position toward the state's target with rate 0.03, so the
distance to the target is multiplied by exactly 0.97 per tick: the particle
monotonically approaches the target, never snaps onto it (a nonzero distance
stays nonzero), and comes within every ε > 0 after finitely many ticks. -/
theorem C9_particle_convergence (s : FormState) (treePos explodePos textPos c T : Vec3)
    (_hT : T = targetForState s treePos explodePos textPos) :
    dist3 (particleStep T c) T = (97 / 100) * dist3 c T ∧
    (∀ n : ℕ, dist3 ((particleStep T)^[n] c) T = (97 / 100) ^ n * dist3 c T) ∧
    (∀ n : ℕ, dist3 ((particleStep T)^[n + 1] c) T ≤ dist3 ((particleStep T)^[n] c) T) ∧
    (dist3 c T ≠ 0 → ∀ n : ℕ, dist3 ((particleStep T)^[n] c) T ≠ 0) ∧
    (∀ ε : ℝ, 0 < ε → ∃ N : ℕ, dist3 ((particleStep T)^[N] c) T < ε) := by
  refine ⟨particleStep_dist T c, particleIter_dist T c, ?_, ?_, ?_⟩
  · intro n
    rw [particleIter_dist, particleIter_dist, pow_succ]
    exact mul_le_mul_of_nonneg_right
      (mul_le_of_le_one_right (pow_nonneg (by norm_num) n) (by norm_num))
      (Real.sqrt_nonneg _)
  · intro hne n
    rw [particleIter_dist]
    exact mul_ne_zero (pow_ne_zero n (by norm_num)) hne
  · intro ε hε
    rcases eq_or_ne (dist3 c T) 0 with h0 | h0
    · exact ⟨0, by simpa [particleIter_dist, h0] using hε⟩
    · have hpos : 0 < dist3 c T := lt_of_le_of_ne (Real.sqrt_nonneg _) (Ne.symm h0)
      obtain ⟨N, hN⟩ :=
        exists_pow_lt_of_lt_one (div_pos hε hpos) (by norm_num : (97 / 100 : ℝ) < 1)
      refine ⟨N, ?_⟩
      rw [particleIter_dist]
      calc (97 / 100 : ℝ) ^ N * dist3 c T < ε / dist3 c T * dist3 c T :=
            mul_lt_mul_of_pos_right hN hpos
        _ = ε := div_mul_cancel₀ ε (ne_of_gt hpos)

/-- Witness for C9: from the origin toward the TREE target (1,0,0), the
particle comes within 1/2 of the target after finitely many ticks. -/
theorem C9_particle_convergence_witness :
    (0 : ℝ) < 1 / 2 ∧
    ∃ N : ℕ, dist3 ((particleStep (targetForState .TREE ⟨1, 0, 0⟩ ⟨2, 0, 0⟩ ⟨3, 0, 0⟩))^[N]
        ⟨0, 0, 0⟩) (targetForState .TREE ⟨1, 0, 0⟩ ⟨2, 0, 0⟩ ⟨3, 0, 0⟩) < 1 / 2 :=
  ⟨by norm_num,
    (C9_particle_convergence .TREE ⟨1, 0, 0⟩ ⟨2, 0, 0⟩ ⟨3, 0, 0⟩ ⟨0, 0, 0⟩
      (targetForState .TREE ⟨1, 0, 0⟩ ⟨2, 0, 0⟩ ⟨3, 0, 0⟩) rfl).2.2.2.2 (1 / 2) (by norm_num)⟩

end XmasTree
